import Mathlib

/-!
Verification of the AI-co-scientist tool-invocation pipeline
(`src/models.py`, `src/tools/composio_client.py`, `src/tools/custom_tools.py`),
shallowly embedded in Lean 4.

The embedding translates the simulated Composio tool-router client and the
four tool wrapper functions.  Python dictionaries returned by the client are
translated to Lean structures; raised-and-caught Python exceptions are
translated to `Except`; the textual JSON parse performed by `json.loads`
(a Python library call, external to this repository) is modelled by giving
each wrapper its parse outcome as input.
-/

namespace CoScientist

/-- A Python string hash.  The source uses the built-in hash of str, which is
process-seeded (PYTHONHASHSEED) and hence opaque; theorems quantify over an
arbitrary hash function of this type wherever possible. -/
abbrev StrHash : Type := String → Int

/-- Deterministic executable stand-in for the built-in str hash, used only to
instantiate concrete counterexamples and witnesses.  No settled claim depends
on the specific values this function produces. -/
def pyHash : StrHash := fun s =>
  s.data.foldl (fun a c => (a * 31 + (c.toNat : Int)) % (2 ^ 61 - 1)) 0

/-- Python str() of a value that may be None (the client takes data with
default None): str(None) is the text None; str of a string is that string.
Stored workbench values are modelled as strings. -/
def pyStr : Option String → String
  | none => "None"
  | some s => s

/-- Parsed JSON values, the result of a successful json.loads.
Numbers are modelled as integers; no behaviour in the sources depends on
non-integer numerics. -/
inductive Json where
  | null
  | bool (b : Bool)
  | num (n : Int)
  | str (s : String)
  | arr (elems : List Json)
  | obj (fields : List (String × Json))

/-- Outcome of json.loads on a wrapper's textual input: either the raised
json.JSONDecodeError or the parsed value.  Every unparseable input string is
mapped to the error case; the wrappers never look at the exception payload. -/
abbrev ParseOutcome (α : Type) : Type := Except Unit α

/-- Python-level failures raised while handling a structurally parsed input:
pydantic validation failures (missing or mistyped field), unpacking a
non-mapping with **, list indexing out of range, calling .get on a non-dict,
and hashing an unhashable value. -/
inductive PyErr where
  | missingField (field : String)
  | wrongType (field : String)
  | notAMapping
  | indexError
  | attributeError
  | typeError
deriving DecidableEq

/-- Modelled rendering of str(e) for a caught Python exception.  The exact
pydantic/Python message text is not semantically relevant to any claim; the
claims only distinguish the error branch from the success branch. -/
def PyErr.message : PyErr → String
  | .missingField f => "1 validation error: " ++ f ++ ": field required"
  | .wrongType f => "1 validation error: " ++ f ++ ": invalid type"
  | .notAMapping => "argument after ** must be a mapping"
  | .indexError => "list index out of range"
  | .attributeError => "object has no attribute get"
  | .typeError => "object is not iterable or not hashable"

/-- TOOL_SLUGS from composio_client.py. -/
def TOOL_SLUGS : List (String × String) :=
  [("ARXIV_SEARCH", "arxiv_search_tool_slug"),
   ("PUBCHEM_QUERY", "pubchem_query_tool_slug"),
   ("NOTION_DRAFT", "notion_create_page_slug"),
   ("REMOTE_BASH", "COMPOSIO_REMOTE_BASH_TOOL"),
   ("MULTI_EXECUTE", "COMPOSIO_MULTI_EXECUTE_TOOL"),
   ("CREATE_PLAN", "COMPOSIO_CREATE_PLAN"),
   ("REMOTE_WORKBENCH", "COMPOSIO_REMOTE_WORKBENCH")]

/-- Python TOOL_SLUGS[k] for a key known to be present (subscript lookup). -/
def toolSlugsItem (k : String) : String := (TOOL_SLUGS.lookup k).getD ""

/-- models.py ResearchQuery: three required fields, no further constraint. -/
structure ResearchQuery where
  topic : String
  target_output : String
  keywords : List String
deriving DecidableEq

/-- models.py FinalSynthesis: five required fields, no further constraint. -/
structure FinalSynthesis where
  hypothesis : String
  protocol_summary : String
  analysis_findings : String
  prior_art_reference_links : List String
  next_steps : String
deriving DecidableEq

/-- The required fields of the FinalSynthesis pydantic model, in declaration
order.  FinalSynthesis.validate checks exactly these fields. -/
def finalSynthesisRequiredFields : List String :=
  ["hypothesis", "protocol_summary", "analysis_findings",
   "prior_art_reference_links", "next_steps"]

/-- Read a required str field of a pydantic model from the parsed object. -/
def getStrField (o : List (String × Json)) (f : String) : Except PyErr String :=
  match o.lookup f with
  | some (Json.str s) => Except.ok s
  | some _ => Except.error (PyErr.wrongType f)
  | none => Except.error (PyErr.missingField f)

/-- A JSON value as a Python str, if it is one. -/
def asString : Json → Option String
  | Json.str s => some s
  | _ => none

/-- Read a required field typed as a list of str from the parsed object. -/
def getStrListField (o : List (String × Json)) (f : String) :
    Except PyErr (List String) :=
  match o.lookup f with
  | some (Json.arr xs) =>
    match xs.mapM asString with
    | some ss => Except.ok ss
    | none => Except.error (PyErr.wrongType f)
  | some _ => Except.error (PyErr.wrongType f)
  | none => Except.error (PyErr.missingField f)

/-- ResearchQuery(**json.loads(...)): pydantic construction of the model from
a parsed JSON value.  All three fields are required; the keywords field must
be a list of str but may be empty (the model declares no length constraint).
Unpacking a non-object with ** raises TypeError, caught by the wrapper. -/
def ResearchQuery.validate (j : Json) : Except PyErr ResearchQuery :=
  match j with
  | Json.obj o =>
    match getStrField o "topic" with
    | Except.error e => Except.error e
    | Except.ok topic =>
      match getStrField o "target_output" with
      | Except.error e => Except.error e
      | Except.ok target_output =>
        match getStrListField o "keywords" with
        | Except.error e => Except.error e
        | Except.ok keywords => Except.ok ⟨topic, target_output, keywords⟩
  | _ => Except.error PyErr.notAMapping

/-- FinalSynthesis(**json.loads(...)): pydantic construction of the model.
All five declared fields are required; prior_art_reference_links must be a
list of str and may be empty. -/
def FinalSynthesis.validate (j : Json) : Except PyErr FinalSynthesis :=
  match j with
  | Json.obj o =>
    match getStrField o "hypothesis" with
    | Except.error e => Except.error e
    | Except.ok hypothesis =>
      match getStrField o "protocol_summary" with
      | Except.error e => Except.error e
      | Except.ok protocol_summary =>
        match getStrField o "analysis_findings" with
        | Except.error e => Except.error e
        | Except.ok analysis_findings =>
          match getStrListField o "prior_art_reference_links" with
          | Except.error e => Except.error e
          | Except.ok links =>
            match getStrField o "next_steps" with
            | Except.error e => Except.error e
            | Except.ok next_steps =>
              Except.ok ⟨hypothesis, protocol_summary, analysis_findings,
                         links, next_steps⟩
  | _ => Except.error PyErr.notAMapping

/-- Result dictionary of ComposioClient.create_plan. -/
structure PlanResult where
  successful : Bool
  complexity_assessment : String
  workflow_steps : List String
  session_id : String
  reasoning : String
deriving DecidableEq

/-- ComposioClient.create_plan.  The Python body indexes
primary_tool_slugs[0] and primary_tool_slugs[1]; on a shorter list that
raises IndexError, modelled as the error case.  The session id is fabricated
from the hash of the use-case text. -/
def create_plan (h : StrHash) (use_case : String)
    (primary_tool_slugs : List String) : Except PyErr PlanResult :=
  match primary_tool_slugs with
  | s0 :: s1 :: _ =>
    Except.ok
      { successful := true
        complexity_assessment :=
          "Hard (requires multi-agent collaboration and large file processing)."
        workflow_steps :=
          ["1. Literature Review (Parallel search using " ++ s0 ++ " and " ++
             s1 ++ ")",
           "2. Store raw results in Remote Workbench.",
           "3. Execute Python Code (Remote Bash) for data cleaning and initial analysis.",
           "4. Draft Final Hypothesis and Protocol.",
           "5. Publish report to Notion/Docs."]
        session_id := "sess-" ++ toString (h use_case)
        reasoning :=
          "The complexity requires orchestration across research tools and a custom execution environment." }
  | _ => Except.error PyErr.indexError

/-- One execution-request dictionary built by the parallel research wrapper:
tool_slug may be any JSON value or Python None after slug resolution. -/
structure ExecRequest where
  tool_slug : Option Json
  arguments : Json

/-- One entry of the results list of ComposioClient.multi_execute_tool. -/
structure ExecResultItem where
  tool_slug : String
  output_summary : String
  workbench_key : Option String
  status : String
deriving DecidableEq

/-- Result dictionary of ComposioClient.multi_execute_tool. -/
structure MultiExecResult where
  successful : Bool
  results : List ExecResultItem
  session_id : String
deriving DecidableEq

/-- First fixed simulated result slot (ARXIV_SEARCH). -/
def arxivResultItem : ExecResultItem :=
  { tool_slug := toolSlugsItem "ARXIV_SEARCH"
    output_summary := "Found 5 highly relevant papers. Raw text stored in workbench."
    workbench_key := some "ARXIV-RAW-DATA-KEY-123"
    status := "completed" }

/-- Second fixed simulated result slot (PUBCHEM_QUERY). -/
def pubchemResultItem : ExecResultItem :=
  { tool_slug := toolSlugsItem "PUBCHEM_QUERY"
    output_summary := "Retrieved 2 candidate chemical structures. Raw data stored in workbench."
    workbench_key := some "PUBCHEM-RAW-DATA-KEY-456"
    status := "completed" }

/-- ComposioClient.multi_execute_tool.  The Python body never reads
execution_requests (beyond printing its length): it always returns the two
fixed simulated result slots and echoes the session id. -/
def multi_execute_tool (execution_requests : List ExecRequest)
    (session_id : String) : MultiExecResult :=
  { successful := true
    results := [arxivResultItem, pubchemResultItem]
    session_id := session_id }

/-- Result dictionary of ComposioClient.remote_workbench.  The store branch
fills workbench_key, the successful retrieve branch fills data, the failure
branch fills error; absent dictionary entries are none. -/
structure WorkbenchResult where
  successful : Bool
  workbench_key : Option String := none
  data : Option String := none
  error : Option String := none
deriving DecidableEq

/-- The only keys the simulated retrieve branch recognises. -/
def workbenchKnownKeys : List String :=
  ["ARXIV-RAW-DATA-KEY-123", "PUBCHEM-RAW-DATA-KEY-456"]

/-- ComposioClient.remote_workbench.  store: the Python idiom
key = key or default takes the generated key when key is None or the empty
string (both falsy); no stored value is recorded anywhere (the client keeps
no state).  retrieve: succeeds only when the key is one of the two fixed
simulation keys, with a fabricated data payload; every other action or key
falls through to the structured failure dictionary.  No branch raises. -/
def remote_workbench (h : StrHash) (action : String)
    (key : Option String := none) (dataArg : Option String := none) :
    WorkbenchResult :=
  if action = "store" then
    let k :=
      match key with
      | some s =>
        if s = "" then "workbench-data-" ++ toString (h (pyStr dataArg)) else s
      | none => "workbench-data-" ++ toString (h (pyStr dataArg))
    { successful := true, workbench_key := some k }
  else if action = "retrieve" then
    match key with
    | some s =>
      if s ∈ workbenchKnownKeys then
        { successful := true
          data := some ("\x7b... large, structured scientific data for " ++ s ++ " ...\x7d") }
      else { successful := false, error := some "Invalid action or key." }
    | none => { successful := false, error := some "Invalid action or key." }
  else { successful := false, error := some "Invalid action or key." }

/-- Result dictionary of ComposioClient.remote_bash_tool. -/
structure BashResult where
  successful : Bool
  stdout : String
  stderr : String
  execution_time_ms : Nat
deriving DecidableEq

/-- json.dumps of the fixed simulated analysis_output dictionary, with the
default dumps separators and key order. -/
def analysisOutputJson : String :=
  "\x7b\"final_clean_compounds\": 3, \"critical_risk_flag\": false, \"summary\": \"Data cleaning complete. Identified 3 high-potential compounds that passed initial risk filtering.\"\x7d"

/-- ComposioClient.remote_bash_tool: ignores the script and returns the fixed
simulated execution result. -/
def remote_bash_tool (script : String) : BashResult :=
  { successful := true
    stdout := analysisOutputJson
    stderr := ""
    execution_time_ms := 450 }

/-- Python repr of a str (the wrappers format lists with str(), which uses
repr on the elements; none of the formatted strings contain quotes needing
escapes). -/
def pyReprStr (s : String) : String := "'" ++ s ++ "'"

/-- Python str() of a list of str. -/
def pyReprStrList (xs : List String) : String :=
  "[" ++ String.intercalate ", " (xs.map pyReprStr) ++ "]"

/-- json.dumps of a list of str, with the default separators. -/
def jsonDumpsStrList (xs : List String) : String :=
  "[" ++ String.intercalate ", " (xs.map (fun s => "\"" ++ s ++ "\"")) ++ "]"

mutual

/-- Python repr of a parsed JSON value: None, True and False, numbers,
quoted strings, lists in brackets, dicts in braces. -/
def pyReprJson : Json → String
  | Json.null => "None"
  | Json.bool true => "True"
  | Json.bool false => "False"
  | Json.num n => toString n
  | Json.str s => pyReprStr s
  | Json.arr xs => "[" ++ String.intercalate ", " (pyReprJsonList xs) ++ "]"
  | Json.obj o => "\x7b" ++ String.intercalate ", " (pyReprJsonObj o) ++ "\x7d"

/-- Entry renderings of a JSON list, for pyReprJson. -/
def pyReprJsonList : List Json → List String
  | [] => []
  | x :: xs => pyReprJson x :: pyReprJsonList xs

/-- Entry renderings of a JSON object, for pyReprJson. -/
def pyReprJsonObj : List (String × Json) → List String
  | [] => []
  | (k, v) :: o => (pyReprStr k ++ ": " ++ pyReprJson v) :: pyReprJsonObj o

end

/-- Python repr of an optional str (an absent workbench key prints None). -/
def pyReprOptStr : Option String → String
  | some s => pyReprStr s
  | none => "None"

/-- Python str() of one multi-execute result dictionary, with the insertion
key order of the source. -/
def pyReprExecResultItem (r : ExecResultItem) : String :=
  "\x7b'tool_slug': " ++ pyReprStr r.tool_slug ++
    ", 'output_summary': " ++ pyReprStr r.output_summary ++
    ", 'workbench_key': " ++ pyReprOptStr r.workbench_key ++
    ", 'status': " ++ pyReprStr r.status ++ "\x7d"

/-- Python str() of the multi-execute results list. -/
def pyReprResults (rs : List ExecResultItem) : String :=
  "[" ++ String.intercalate ", " (rs.map pyReprExecResultItem) ++ "]"

/-- Python iteration over a parsed JSON value (for req in parsed / for key in
parsed): a list yields its elements, a dict yields its keys as strings, a
string yields its one-character substrings, and None, booleans and numbers
raise TypeError. -/
def iterAsPython : Json → Except PyErr (List Json)
  | Json.arr xs => Except.ok xs
  | Json.obj o => Except.ok (o.map (fun kv => Json.str kv.1))
  | Json.str s => Except.ok (s.data.map (fun c => Json.str (String.mk [c])))
  | _ => Except.error PyErr.typeError

/-- TOOL_SLUGS.get(req.get('tool_slug')) or req.get('tool_slug'): a known
string slug resolves through the table; an unknown string slug, None, a
missing field, a number, a boolean or null passes through unchanged (the
table lookup misses and the Python or-expression yields the original value);
an unhashable value (list or dict) raises TypeError, caught by the wrapper. -/
def resolveSlug : Option Json → Except PyErr (Option Json)
  | none => Except.ok none
  | some (Json.str s) =>
    Except.ok (some (Json.str (match TOOL_SLUGS.lookup s with
      | some t => t
      | none => s)))
  | some (Json.arr _) => Except.error PyErr.typeError
  | some (Json.obj _) => Except.error PyErr.typeError
  | some v => Except.ok (some v)

/-- Build one execution-request dictionary from one parsed list element:
req.get('tool_slug') resolved through the slug table, and
req.get('arguments', default empty dict).  Calling .get on a non-dict
element raises AttributeError, caught by the wrapper. -/
def extractRequest : Json → Except PyErr ExecRequest
  | Json.obj o =>
    match resolveSlug (o.lookup "tool_slug") with
    | Except.error e => Except.error e
    | Except.ok slug =>
      Except.ok { tool_slug := slug
                  arguments := (o.lookup "arguments").getD (Json.obj []) }
  | _ => Except.error PyErr.attributeError

/-- One client call recorded by the analysis wrapper: a workbench retrieve
with the iterated key value, or the single remote bash execution. -/
inductive ClientEvent where
  | workbenchRetrieve (key : Json)
  | remoteBash (script : String)

/-- custom_tools.create_workflow_plan.  Input is the parse outcome of the
query_json text.  A JSONDecodeError and every other caught exception return
the corresponding textual error; on validation success the wrapper calls
create_plan with the two fixed primary slugs and formats the session id and
step list.  The simulated plan result always carries reasoning, so the
Python fallback lookup plan_result.get('reasoning', 'Unknown Error') is its
reasoning field. -/
def create_workflow_plan (h : StrHash) (query_json : ParseOutcome Json) :
    String :=
  match query_json with
  | Except.error _ =>
    "CRITICAL TOOL ERROR: Input was not valid JSON. You must pass a JSON string conforming to ResearchQuery."
  | Except.ok j =>
    match ResearchQuery.validate j with
    | Except.error e =>
      "CRITICAL TOOL ERROR: Failed to call Composio CREATE_PLAN. Error: " ++
        e.message
    | Except.ok query =>
      let primary_tools := [toolSlugsItem "ARXIV_SEARCH",
                            toolSlugsItem "PUBCHEM_QUERY"]
      let use_case :=
        "Generate a novel hypothesis and experimental protocol for the topic: "
          ++ query.topic
      match create_plan h use_case primary_tools with
      | Except.error e =>
        "CRITICAL TOOL ERROR: Failed to call Composio CREATE_PLAN. Error: " ++
          e.message
      | Except.ok plan_result =>
        if plan_result.successful then
          "Plan successful. Session ID: " ++ plan_result.session_id ++
            ". Workflow steps: " ++ pyReprStrList plan_result.workflow_steps ++
            "."
        else
          "Error generating plan: " ++ plan_result.reasoning

/-- custom_tools.execute_parallel_research.  Input is the session id and the
parse outcome of the requests_json text.  The parsed value is iterated and
each element converted to an execution-request dictionary (the first raised
exception aborts into the catch-all branch); the result of multi_execute_tool
is always successful in simulation, so the wrapper extracts the workbench
keys and formats them next to the raw results.  The simulated result
dictionary has no error entry, so the dead failure branch formats the
.get default Unknown Error. -/
def execute_parallel_research (session_id : String)
    (requests_json : ParseOutcome Json) : String :=
  match requests_json with
  | Except.error _ => "JSON Error: The 'requests_json' input was not valid JSON."
  | Except.ok j =>
    match iterAsPython j with
    | Except.error e =>
      "CRITICAL TOOL ERROR: Failed to call Composio MULTI_EXECUTE. Error: " ++
        e.message
    | Except.ok elems =>
      match elems.mapM extractRequest with
      | Except.error e =>
        "CRITICAL TOOL ERROR: Failed to call Composio MULTI_EXECUTE. Error: " ++
          e.message
      | Except.ok execution_requests =>
        let multi_exec_result := multi_execute_tool execution_requests session_id
        if multi_exec_result.successful then
          "Parallel execution successful. Raw data saved to Workbench. Workbench Keys (JSON list): "
            ++ jsonDumpsStrList
                (multi_exec_result.results.filterMap ExecResultItem.workbench_key)
            ++ ". Summary: " ++ pyReprResults multi_exec_result.results
        else
          "Error during multi-execution: Unknown Error"

/-- custom_tools.run_data_analysis.  Input is the parse outcome of the
workbench_keys_json text.  The parsed value is iterated; for each element the
wrapper calls remote_workbench(action retrieve) and discards the result (the
simulated client is stateless, so each call is recorded as a trace event);
then it synthesizes the script text and calls remote_bash_tool once.  The
returned pair is the wrapper output and the ordered trace of client calls.
The simulated bash result is always successful, so the stdout branch is
taken. -/
def run_data_analysis (workbench_keys_json : ParseOutcome Json) :
    String × List ClientEvent :=
  match workbench_keys_json with
  | Except.error _ =>
    ("JSON Error: The 'workbench_keys_json' input was not valid JSON.", [])
  | Except.ok j =>
    match iterAsPython j with
    | Except.error e =>
      ("CRITICAL TOOL ERROR: Failed to run data analysis. Error: " ++ e.message,
       [])
    | Except.ok keys =>
      let events := keys.map ClientEvent.workbenchRetrieve
      let python_script :=
        "analyze_data_from_workbench(keys=" ++ pyReprJson j ++ ")"
      let bash_result := remote_bash_tool python_script
      let out :=
        if bash_result.successful then
          "Analysis complete. Raw analysis output (stdout JSON): " ++
            bash_result.stdout
        else
          "Error during Remote Bash execution: " ++ bash_result.stderr
      (out, events ++ [ClientEvent.remoteBash python_script])

/-- custom_tools.publish_final_report.  Input is the parse outcome of the
final_synthesis_json text.  On validation success the wrapper fabricates the
report URL from the hash of the hypothesis and returns the confirmation
text; a validation failure is caught and reported textually. -/
def publish_final_report (h : StrHash)
    (final_synthesis_json : ParseOutcome Json) : String :=
  match final_synthesis_json with
  | Except.error _ =>
    "JSON Error: The 'final_synthesis_json' input was not valid JSON. Ensure all fields in FinalSynthesis are present."
  | Except.ok j =>
    match FinalSynthesis.validate j with
    | Except.error e =>
      "CRITICAL TOOL ERROR: Failed to publish report. Error: " ++ e.message
    | Except.ok synthesis_data =>
      "Final Synthesis published successfully. Report URL: https://notion.com/reports/"
        ++ toString (h synthesis_data.hypothesis) ++ "."

/-- A ResearchQuery payload with all three fields present and two keywords,
the end-to-end scenario input of the repository. -/
def validQueryPayload : Json :=
  Json.obj [("topic", Json.str "graphene quantum dots for drug delivery"),
            ("target_output", Json.str "Draft full experimental protocol"),
            ("keywords", Json.arr [Json.str "graphene", Json.str "delivery"])]

/-- A structurally complete ResearchQuery payload whose keywords list is
empty. -/
def emptyKeywordsPayload : Json :=
  Json.obj [("topic", Json.str "graphene"),
            ("target_output", Json.str "protocol"),
            ("keywords", Json.arr [])]

/-- A valid ResearchQuery payload with topic graphene. -/
def topicPayloadA : Json :=
  Json.obj [("topic", Json.str "graphene"),
            ("target_output", Json.str "protocol"),
            ("keywords", Json.arr [Json.str "delivery"])]

/-- Another valid ResearchQuery payload with topic graphene but a different
target_output and different keywords. -/
def topicPayloadB : Json :=
  Json.obj [("topic", Json.str "graphene"),
            ("target_output", Json.str "dataset of candidate compounds"),
            ("keywords", Json.arr [Json.str "quantum", Json.str "dots"])]

/- ------------------------------------------------------------------ -/
/- Helper lemmas                                                       -/
/- ------------------------------------------------------------------ -/

theorem data_append (a b : String) : (a ++ b).data = a.data ++ b.data := by
  cases a; cases b; rfl

theorem generated_key_ne_arxiv (t : String) :
    "workbench-data-" ++ t ≠ "ARXIV-RAW-DATA-KEY-123" := by
  intro hEq
  have h2 := congrArg String.data hEq
  rw [data_append] at h2
  simp at h2

theorem generated_key_ne_pubchem (t : String) :
    "workbench-data-" ++ t ≠ "PUBCHEM-RAW-DATA-KEY-456" := by
  intro hEq
  have h2 := congrArg String.data hEq
  rw [data_append] at h2
  simp at h2

theorem generated_key_unknown (t : String) :
    ("workbench-data-" ++ t) ∉ workbenchKnownKeys := by
  intro hmem
  simp only [workbenchKnownKeys, List.mem_cons, List.not_mem_nil, or_false] at hmem
  rcases hmem with h1 | h2
  · exact generated_key_ne_arxiv t h1
  · exact generated_key_ne_pubchem t h2

theorem sess_ne_empty (t : String) : "sess-" ++ t ≠ "" := by
  intro hEq
  have h2 := congrArg String.data hEq
  rw [data_append] at h2
  simp at h2

/-- Any non-store action with a key outside the two simulation keys falls
through to the structured failure dictionary. -/
theorem remote_workbench_failure (h : StrHash) (action : String)
    (key : Option String) (dataArg : Option String)
    (hstore : action ≠ "store")
    (hret : ∀ s, action = "retrieve" → key = some s → s ∉ workbenchKnownKeys) :
    remote_workbench h action key dataArg =
      { successful := false, error := some "Invalid action or key." } := by
  unfold remote_workbench
  rw [if_neg hstore]
  by_cases hr : action = "retrieve"
  · rw [if_pos hr]
    cases key with
    | none => rfl
    | some s =>
      have hm : s ∉ workbenchKnownKeys := hret s hr rfl
      simp [hm]
  · rw [if_neg hr]

/- ------------------------------------------------------------------ -/
/- C1                                                                  -/
/- ------------------------------------------------------------------ -/

/-- C1 counterexample: multi_execute on an empty request list (N = 0) does
not return N result slots — it returns its two fixed simulated slots, so the
slot count cannot correspond to the input count. -/
theorem multi_execute_zero_requests_two_slots :
    (multi_execute_tool [] "sess-demo").results.length ≠ 0 := by decide

/-- C1 amended: for every request list and session id, multi_execute_tool
returns exactly two result slots — the fixed simulated ARXIV_SEARCH and
PUBCHEM_QUERY results — with successful true and the caller's session id
echoed, independently of the number, content and order of the requests. -/
theorem multi_execute_fixed_two_slots (execution_requests : List ExecRequest)
    (session_id : String) :
    multi_execute_tool execution_requests session_id =
      { successful := true
        results := [arxivResultItem, pubchemResultItem]
        session_id := session_id } ∧
    (multi_execute_tool execution_requests session_id).results.length = 2 :=
  ⟨rfl, rfl⟩

/- ------------------------------------------------------------------ -/
/- C2                                                                  -/
/- ------------------------------------------------------------------ -/

/-- C2 counterexample: storing the value v with no supplied key returns the
key workbench-data-118 (under the concrete hash stand-in), and retrieving
that very key yields the structured failure dictionary, not the stored
value — the round-trip law fails and no UnknownKeyError distinct from the
generic failure exists. -/
theorem workbench_roundtrip_counterexample :
    (remote_workbench pyHash "store" none (some "v")).workbench_key =
      some "workbench-data-118" ∧
    remote_workbench pyHash "retrieve" (some "workbench-data-118") none =
      { successful := false, error := some "Invalid action or key." } := by
  decide

/-- C2 amended: for every stored value and every hash function, store
succeeds and returns the generated key, but the client records nothing, and
a retrieve with the returned key (which always begins workbench-data- and
hence is never one of the two fixed simulation keys) returns the structured
failure dictionary with successful false and the error text, rather than the
stored value. -/
theorem workbench_store_then_retrieve_fails (h : StrHash)
    (dataArg : Option String) :
    (remote_workbench h "store" none dataArg).successful = true ∧
    (remote_workbench h "store" none dataArg).workbench_key =
      some ("workbench-data-" ++ toString (h (pyStr dataArg))) ∧
    remote_workbench h "retrieve"
        (some ("workbench-data-" ++ toString (h (pyStr dataArg)))) none =
      { successful := false, error := some "Invalid action or key." } := by
  refine ⟨rfl, rfl, ?_⟩
  exact remote_workbench_failure h "retrieve" _ none (by decide)
    (fun s _ hs => by
      cases hs
      exact generated_key_unknown _)

/- ------------------------------------------------------------------ -/
/- C7                                                                  -/
/- ------------------------------------------------------------------ -/

/-- C7: the generated store key is a pure function of str(data) — the client
keeps no per-session state — so any two parameterless store operations whose
values print identically (in particular, two stores of the same value within
one session) receive the identical key: key generation is not
collision-free. -/
theorem workbench_store_key_collision (h : StrHash) (d1 d2 : Option String)
    (hd : pyStr d1 = pyStr d2) :
    (remote_workbench h "store" none d1).workbench_key =
      (remote_workbench h "store" none d2).workbench_key := by
  simp [remote_workbench, hd]

/-- C7 witness: two store calls with the same value x (no supplied key) both
return the key workbench-data-120 under the concrete hash stand-in. -/
theorem workbench_store_key_collision_witness :
    (remote_workbench pyHash "store" none (some "x")).workbench_key =
      some "workbench-data-120" ∧
    (remote_workbench pyHash "store" none (some "x")).workbench_key =
      (remote_workbench pyHash "store" none (some "x")).workbench_key :=
  ⟨by decide, workbench_store_key_collision pyHash (some "x") (some "x") rfl⟩

/- ------------------------------------------------------------------ -/
/- C9                                                                  -/
/- ------------------------------------------------------------------ -/

/-- C9: for every action other than store and retrieve, and for every
retrieve whose key is not one of the keys with associated (simulated) data,
remote_workbench returns the structured failure dictionary with successful
false and the error text.  The Lean function is total, mirroring that no
branch of the Python body raises. -/
theorem remote_workbench_invalid_action_or_key (h : StrHash) (action : String)
    (key : Option String) (dataArg : Option String)
    (hstore : action ≠ "store")
    (hret : ∀ s, action = "retrieve" → key = some s → s ∉ workbenchKnownKeys) :
    remote_workbench h action key dataArg =
      { successful := false, error := some "Invalid action or key." } ∧
    (remote_workbench h action key dataArg).successful = false := by
  have hfail := remote_workbench_failure h action key dataArg hstore hret
  exact ⟨hfail, by rw [hfail]⟩

/-- C9 witness: a retrieve of the never-stored key nope returns the
structured failure dictionary. -/
theorem remote_workbench_invalid_action_or_key_witness :
    remote_workbench pyHash "retrieve" (some "nope") none =
      { successful := false, error := some "Invalid action or key." } ∧
    (remote_workbench pyHash "retrieve" (some "nope") none).successful =
      false :=
  remote_workbench_invalid_action_or_key pyHash "retrieve" (some "nope") none
    (by decide) (fun s _ hs => by cases hs; decide)

/- ------------------------------------------------------------------ -/
/- C3                                                                  -/
/- ------------------------------------------------------------------ -/

/-- C3: every input text that json.loads cannot parse reaches each wrapper as
the JSONDecodeError outcome, and each of the four wrappers then returns a
textual error message containing the word JSON.  Each wrapper is a total
Lean function, mirroring the catch-all except clauses: no exception crosses
the wrapper boundary. -/
theorem wrappers_reject_malformed_json (h : StrHash) (session_id : String) :
    (∃ a b, create_workflow_plan h (Except.error ()) = a ++ "JSON" ++ b) ∧
    (∃ a b,
      execute_parallel_research session_id (Except.error ()) =
        a ++ "JSON" ++ b) ∧
    (∃ a b, (run_data_analysis (Except.error ())).1 = a ++ "JSON" ++ b) ∧
    (∃ a b, publish_final_report h (Except.error ()) = a ++ "JSON" ++ b) :=
  ⟨⟨"CRITICAL TOOL ERROR: Input was not valid ",
    ". You must pass a JSON string conforming to ResearchQuery.", rfl⟩,
   ⟨"JSON Error: The 'requests_json' input was not valid ", ".", rfl⟩,
   ⟨"JSON Error: The 'workbench_keys_json' input was not valid ", ".", rfl⟩,
   ⟨"JSON Error: The 'final_synthesis_json' input was not valid ",
    ". Ensure all fields in FinalSynthesis are present.", rfl⟩⟩

/- ------------------------------------------------------------------ -/
/- C4                                                                  -/
/- ------------------------------------------------------------------ -/

/-- C4 counterexample: a ResearchQuery payload whose keywords field is the
empty list validates successfully — the pydantic model declares no
non-emptiness constraint, so no SchemaValidationError occurs. -/
theorem research_query_empty_keywords_accepted :
    ResearchQuery.validate emptyKeywordsPayload =
      Except.ok { topic := "graphene", target_output := "protocol",
                  keywords := [] } := rfl

/-- C4 amended: for every topic and target_output, a payload with all three
fields present and an empty keywords list validates successfully, and the
Plan Wrapper proceeds to return the plan success message rather than a
validation error. -/
theorem research_query_empty_keywords_proceeds (h : StrHash)
    (topic target_output : String) :
    ResearchQuery.validate
        (Json.obj [("topic", Json.str topic),
                   ("target_output", Json.str target_output),
                   ("keywords", Json.arr [])]) =
      Except.ok { topic := topic, target_output := target_output,
                  keywords := [] } ∧
    ∃ sid steps,
      create_workflow_plan h
          (Except.ok (Json.obj [("topic", Json.str topic),
                                ("target_output", Json.str target_output),
                                ("keywords", Json.arr [])])) =
        "Plan successful. Session ID: " ++ sid ++ ". Workflow steps: " ++
          pyReprStrList steps ++ "." :=
  ⟨rfl,
   ⟨"sess-" ++ toString
      (h ("Generate a novel hypothesis and experimental protocol for the topic: "
            ++ topic)),
    ["1. Literature Review (Parallel search using arxiv_search_tool_slug and pubchem_query_tool_slug)",
     "2. Store raw results in Remote Workbench.",
     "3. Execute Python Code (Remote Bash) for data cleaning and initial analysis.",
     "4. Draft Final Hypothesis and Protocol.",
     "5. Publish report to Notion/Docs."], rfl⟩⟩

/- ------------------------------------------------------------------ -/
/- C5                                                                  -/
/- ------------------------------------------------------------------ -/

/-- C5: for every payload that validates as a ResearchQuery (with non-empty
keywords, per the claim, although the code does not require it), the Plan
Wrapper output embeds a non-empty session id and the five workflow steps —
at least one step. -/
theorem create_workflow_plan_valid_output (h : StrHash) (j : Json)
    (q : ResearchQuery) (hv : ResearchQuery.validate j = Except.ok q)
    (_hk : q.keywords ≠ []) :
    ∃ sid steps, sid ≠ "" ∧ 1 ≤ steps.length ∧
      create_workflow_plan h (Except.ok j) =
        "Plan successful. Session ID: " ++ sid ++ ". Workflow steps: " ++
          pyReprStrList steps ++ "." := by
  refine ⟨"sess-" ++ toString
      (h ("Generate a novel hypothesis and experimental protocol for the topic: "
            ++ q.topic)),
    ["1. Literature Review (Parallel search using arxiv_search_tool_slug and pubchem_query_tool_slug)",
     "2. Store raw results in Remote Workbench.",
     "3. Execute Python Code (Remote Bash) for data cleaning and initial analysis.",
     "4. Draft Final Hypothesis and Protocol.",
     "5. Publish report to Notion/Docs."],
    sess_ne_empty _, by decide, ?_⟩
  simp only [create_workflow_plan, hv]
  rfl

/-- C5 witness: the end-to-end scenario query validates and the Plan Wrapper
output has the stated shape. -/
theorem create_workflow_plan_valid_output_witness :
    ResearchQuery.validate validQueryPayload =
      Except.ok { topic := "graphene quantum dots for drug delivery"
                  target_output := "Draft full experimental protocol"
                  keywords := ["graphene", "delivery"] } ∧
    ∃ sid steps, sid ≠ "" ∧ 1 ≤ steps.length ∧
      create_workflow_plan pyHash (Except.ok validQueryPayload) =
        "Plan successful. Session ID: " ++ sid ++ ". Workflow steps: " ++
          pyReprStrList steps ++ "." :=
  ⟨rfl,
   create_workflow_plan_valid_output pyHash validQueryPayload
     { topic := "graphene quantum dots for drug delivery"
       target_output := "Draft full experimental protocol"
       keywords := ["graphene", "delivery"] } rfl (by decide)⟩

/- ------------------------------------------------------------------ -/
/- C10                                                                 -/
/- ------------------------------------------------------------------ -/

/-- C10: the Plan Wrapper output is a function of the topic field alone —
two valid queries with the same topic but arbitrary target_output and
keywords produce the identical output text. -/
theorem create_workflow_plan_topic_determined (h : StrHash) (j1 j2 : Json)
    (q1 q2 : ResearchQuery)
    (h1 : ResearchQuery.validate j1 = Except.ok q1)
    (h2 : ResearchQuery.validate j2 = Except.ok q2)
    (ht : q1.topic = q2.topic) :
    create_workflow_plan h (Except.ok j1) =
      create_workflow_plan h (Except.ok j2) := by
  simp only [create_workflow_plan, h1, h2, ht]

/-- C10 witness: two graphene queries differing in target_output and
keywords give the identical Plan Wrapper output. -/
theorem create_workflow_plan_topic_determined_witness :
    ResearchQuery.validate topicPayloadA =
      Except.ok { topic := "graphene", target_output := "protocol",
                  keywords := ["delivery"] } ∧
    ResearchQuery.validate topicPayloadB =
      Except.ok { topic := "graphene",
                  target_output := "dataset of candidate compounds",
                  keywords := ["quantum", "dots"] } ∧
    create_workflow_plan pyHash (Except.ok topicPayloadA) =
      create_workflow_plan pyHash (Except.ok topicPayloadB) :=
  ⟨rfl, rfl,
   create_workflow_plan_topic_determined pyHash topicPayloadA topicPayloadB
     { topic := "graphene", target_output := "protocol",
       keywords := ["delivery"] }
     { topic := "graphene", target_output := "dataset of candidate compounds",
       keywords := ["quantum", "dots"] } rfl rfl rfl⟩

/- ------------------------------------------------------------------ -/
/- C6                                                                  -/
/- ------------------------------------------------------------------ -/

theorem getStrField_ok_isSome (o : List (String × Json)) (f : String)
    (v : String) (hg : getStrField o f = Except.ok v) :
    (o.lookup f).isSome = true := by
  cases hl : o.lookup f with
  | none => simp [getStrField, hl] at hg
  | some j => rfl

theorem getStrListField_ok_isSome (o : List (String × Json)) (f : String)
    (v : List String) (hg : getStrListField o f = Except.ok v) :
    (o.lookup f).isSome = true := by
  cases hl : o.lookup f with
  | none => simp [getStrListField, hl] at hg
  | some j => rfl

/-- A successfully validated FinalSynthesis payload has every one of the five
required fields present. -/
theorem finalSynthesis_validate_ok_fields (o : List (String × Json))
    (s : FinalSynthesis)
    (hok : FinalSynthesis.validate (Json.obj o) = Except.ok s) :
    ∀ f ∈ finalSynthesisRequiredFields, (o.lookup f).isSome = true := by
  intro f hf
  cases h1 : getStrField o "hypothesis" with
  | error e => simp [FinalSynthesis.validate, h1] at hok
  | ok v1 =>
  cases h2 : getStrField o "protocol_summary" with
  | error e => simp [FinalSynthesis.validate, h1, h2] at hok
  | ok v2 =>
  cases h3 : getStrField o "analysis_findings" with
  | error e => simp [FinalSynthesis.validate, h1, h2, h3] at hok
  | ok v3 =>
  cases h4 : getStrListField o "prior_art_reference_links" with
  | error e => simp [FinalSynthesis.validate, h1, h2, h3, h4] at hok
  | ok v4 =>
  cases h5 : getStrField o "next_steps" with
  | error e => simp [FinalSynthesis.validate, h1, h2, h3, h4, h5] at hok
  | ok v5 =>
  simp only [finalSynthesisRequiredFields, List.mem_cons,
    List.not_mem_nil, or_false] at hf
  rcases hf with rfl | rfl | rfl | rfl | rfl
  · exact getStrField_ok_isSome o _ v1 h1
  · exact getStrField_ok_isSome o _ v2 h2
  · exact getStrField_ok_isSome o _ v3 h3
  · exact getStrListField_ok_isSome o _ v4 h4
  · exact getStrField_ok_isSome o _ v5 h5

theorem mapM_loop_asString (ss : List String) (acc : List String) :
    List.mapM.loop asString (ss.map Json.str) acc =
      some (acc.reverse ++ ss) := by
  induction ss generalizing acc with
  | nil => simp [List.mapM.loop]
  | cons a l ih => simp [List.mapM.loop, asString, ih]

theorem mapM_asString_map_str (ss : List String) :
    (ss.map Json.str).mapM asString = some ss := by
  simp [List.mapM, mapM_loop_asString]

/-- C6 counterexample: the FinalSynthesis model declares five required
fields, not six — the field set the Publish Wrapper validates against has
length five. -/
theorem finalSynthesis_five_required_fields :
    finalSynthesisRequiredFields.length = 5 ∧
    finalSynthesisRequiredFields.length ≠ 6 := by decide

/-- C6 amended: the Publish Wrapper rejects (returns a textual error for)
any FinalSynthesis payload missing one of the five required fields, and for
every payload with all five fields present and well typed — including one
whose prior_art_reference_links list is empty — it returns the success
confirmation with the report identifier derived from the hash of the
hypothesis. -/
theorem publish_final_report_field_validation (h : StrHash) :
    (∀ (o : List (String × Json)) (f : String),
      f ∈ finalSynthesisRequiredFields → o.lookup f = none →
      ∃ msg, publish_final_report h (Except.ok (Json.obj o)) =
        "CRITICAL TOOL ERROR: Failed to publish report. Error: " ++ msg) ∧
    (∀ (hypothesis protocol_summary analysis_findings : String)
       (links : List String) (next_steps : String),
      publish_final_report h
          (Except.ok (Json.obj
            [("hypothesis", Json.str hypothesis),
             ("protocol_summary", Json.str protocol_summary),
             ("analysis_findings", Json.str analysis_findings),
             ("prior_art_reference_links", Json.arr (links.map Json.str)),
             ("next_steps", Json.str next_steps)])) =
        "Final Synthesis published successfully. Report URL: https://notion.com/reports/"
          ++ toString (h hypothesis) ++ ".") := by
  constructor
  · intro o f hf hnone
    cases hval : FinalSynthesis.validate (Json.obj o) with
    | error e =>
      exact ⟨e.message, by simp [publish_final_report, hval]⟩
    | ok s =>
      have hs := finalSynthesis_validate_ok_fields o s hval f hf
      rw [hnone] at hs
      simp at hs
  · intro hypothesis protocol_summary analysis_findings links next_steps
    simp [publish_final_report, FinalSynthesis.validate, getStrField,
      getStrListField, List.lookup, List.mapM, mapM_loop_asString]

/-- C6 witness: a payload missing protocol_summary is rejected with the
textual error, and a complete payload with an empty
prior_art_reference_links list is published with the derived report URL. -/
theorem publish_final_report_field_validation_witness :
    (∃ msg, publish_final_report pyHash
        (Except.ok (Json.obj [("hypothesis", Json.str "x")])) =
      "CRITICAL TOOL ERROR: Failed to publish report. Error: " ++ msg) ∧
    publish_final_report pyHash
        (Except.ok (Json.obj
          [("hypothesis", Json.str "hyp"),
           ("protocol_summary", Json.str "prot"),
           ("analysis_findings", Json.str "anal"),
           ("prior_art_reference_links", Json.arr []),
           ("next_steps", Json.str "next")])) =
      "Final Synthesis published successfully. Report URL: https://notion.com/reports/"
        ++ toString (pyHash "hyp") ++ "." :=
  ⟨(publish_final_report_field_validation pyHash).1
      [("hypothesis", Json.str "x")] "protocol_summary" (by decide) rfl,
   (publish_final_report_field_validation pyHash).2 "hyp" "prot" "anal" []
      "next"⟩

/- ------------------------------------------------------------------ -/
/- C8                                                                  -/
/- ------------------------------------------------------------------ -/

theorem pyReprJsonList_map_str (ks : List String) :
    pyReprJsonList (ks.map Json.str) = ks.map pyReprStr := by
  induction ks with
  | nil => rfl
  | cons k ks ih => simp [pyReprJsonList, pyReprJson, ih]

/-- C8 counterexample: on the canonical two-key list the Remote Analysis
Wrapper output is not the remote execution's stdout itself — it carries a
fixed prefix before the stdout text. -/
theorem run_data_analysis_output_not_stdout_verbatim :
    (run_data_analysis (Except.ok
        (Json.arr [Json.str "ARXIV-RAW-DATA-KEY-123",
                   Json.str "PUBCHEM-RAW-DATA-KEY-456"]))).1 ≠
      (remote_bash_tool
        "analyze_data_from_workbench(keys=['ARXIV-RAW-DATA-KEY-123', 'PUBCHEM-RAW-DATA-KEY-456'])").stdout := by
  decide

/-- C8 amended: for every JSON list of workbench keys, the wrapper performs
exactly one retrieve per key, in input order, followed by exactly one remote
execution — a retrieve of an unknown key returns a structured failure
(second conjunct) and does not abort the remaining retrievals, which the
trace equality shows by listing every key — and the wrapper output is the
fixed prefix followed by the execution's stdout verbatim. -/
theorem run_data_analysis_trace (h : StrHash) (keys : List String) :
    run_data_analysis (Except.ok (Json.arr (keys.map Json.str))) =
      ("Analysis complete. Raw analysis output (stdout JSON): " ++
         analysisOutputJson,
       (keys.map (fun k => ClientEvent.workbenchRetrieve (Json.str k))) ++
         [ClientEvent.remoteBash
           ("analyze_data_from_workbench(keys=" ++ pyReprStrList keys ++ ")")]) ∧
    (∀ k ∈ keys, k ∉ workbenchKnownKeys →
      (remote_workbench h "retrieve" (some k) none).successful = false) := by
  constructor
  · simp [run_data_analysis, iterAsPython, remote_bash_tool, pyReprJson,
      pyReprJsonList_map_str, pyReprStrList]
  · intro k _ hkn
    rw [remote_workbench_failure h "retrieve" (some k) none (by decide)
      (fun s _ hs => by cases hs; exact hkn)]

/-- C8 witness: on the one-element key list nope — an unknown key whose
retrieve fails — the wrapper still retrieves it and performs the single
remote execution, returning the prefixed stdout. -/
theorem run_data_analysis_trace_witness :
    run_data_analysis (Except.ok (Json.arr [Json.str "nope"])) =
      ("Analysis complete. Raw analysis output (stdout JSON): " ++
         analysisOutputJson,
       [ClientEvent.workbenchRetrieve (Json.str "nope"),
        ClientEvent.remoteBash
          ("analyze_data_from_workbench(keys=" ++ pyReprStrList ["nope"] ++ ")")]) ∧
    (remote_workbench pyHash "retrieve" (some "nope") none).successful =
      false :=
  ⟨(run_data_analysis_trace pyHash ["nope"]).1,
   (run_data_analysis_trace pyHash ["nope"]).2 "nope" (by decide) (by decide)⟩

end CoScientist
